import Mathlib

/-!
# Verification of the weather pipeline (matanweisz/python-weather-app)

Shallow embedding of the data-retrieval-and-aggregation pipeline:
`api_data.py` (geocode and forecast calls), `data_parser.py` (payload
extraction) and `weather.py` (per-day aggregation and presentation
formatting).  Numeric values are modelled as rationals; Python
exceptions become an explicit error type and fallible code returns
`Except`.  Mutable objects (`API`, `WeatherData`) become explicit
state passing.
-/

namespace WeatherApp

/-- Kinds of Python exceptions the pipeline can raise, plus the two typed
errors the specification postulates (`insufficientDataError`,
`malformedResponseError`) which the source never defines nor raises. -/
inductive WErr where
  /-- Python `ValueError("Location not found: ...")` raised by `API.get_geocode`. -/
  | valueLocationNotFound
  /-- Python `ConnectionError` raised by `API.get_weather` on transport failure. -/
  | connectionError
  /-- Python `AttributeError`, e.g. calling `.get` on `None`. -/
  | attributeError
  /-- Python `IndexError` from subscripting a list out of range. -/
  | indexError
  /-- Python `TypeError`, e.g. subscripting `None`. -/
  | typeError
  /-- The spec's `InsufficientDataError`; no code in the repository raises it. -/
  | insufficientDataError
  /-- The spec's `MalformedResponseError`; no code in the repository raises it. -/
  | malformedResponseError
deriving DecidableEq, Repr

/-- Python list subscription `l[i]` for a non-negative index:
the element, or `IndexError` past the end. -/
def listGet (l : List α) (i : ℕ) : Except WErr α :=
  match l.get? i with
  | some a => .ok a
  | none => .error .indexError

/-- Subscription through a possibly-`None` value: `None[i]` raises
`TypeError`, a real list subscripts as usual. -/
def optGet (o : Option (List α)) (i : ℕ) : Except WErr α :=
  match o with
  | none => .error .typeError
  | some l => listGet l i

/-- The `hourly` sub-dictionary of a forecast payload; each expected
sub-key may be absent (`none`). -/
structure HourlyData where
  relative_humidity_2m : Option (List ℚ)
  cloud_cover : Option (List ℚ)
deriving DecidableEq, Repr

/-- The `daily` sub-dictionary of a forecast payload; each expected
sub-key may be absent (`none`). -/
structure DailyData where
  time : Option (List String)
  temperature_2m_max : Option (List ℚ)
  temperature_2m_min : Option (List ℚ)
  uv_index_max : Option (List ℚ)
deriving DecidableEq, Repr

/-- A raw forecast payload: the two top-level keys, each possibly absent. -/
structure ApiData where
  hourly : Option HourlyData
  daily : Option DailyData
deriving DecidableEq, Repr

/-- The constructor `Parser.__init__`: stores `api_data.get('hourly')` and
`api_data.get('daily')` (`None` when the key is absent). -/
structure Parser where
  hourly_data : Option HourlyData
  daily_data : Option DailyData
deriving DecidableEq, Repr

/-- Building `Parser(api_data)` for a payload that is a dictionary. -/
def Parser.init (api_data : ApiData) : Parser :=
  ⟨api_data.hourly, api_data.daily⟩

/-- Accessor `Parser.get_humidity`: `self.hourly_data.get('relative_humidity_2m')`;
raises `AttributeError` when `hourly_data` is `None`, returns `None`
(without failing) when only the sub-key is absent. -/
def Parser.get_humidity (p : Parser) : Except WErr (Option (List ℚ)) :=
  match p.hourly_data with
  | none => .error .attributeError
  | some h => .ok h.relative_humidity_2m

/-- Accessor `Parser.get_cloud_cover`: `self.hourly_data.get('cloud_cover')`. -/
def Parser.get_cloud_cover (p : Parser) : Except WErr (Option (List ℚ)) :=
  match p.hourly_data with
  | none => .error .attributeError
  | some h => .ok h.cloud_cover

/-- Accessor `Parser.get_time`: `self.daily_data.get('time')`. -/
def Parser.get_time (p : Parser) : Except WErr (Option (List String)) :=
  match p.daily_data with
  | none => .error .attributeError
  | some d => .ok d.time

/-- Accessor `Parser.get_max_temp`: `self.daily_data.get('temperature_2m_max')`. -/
def Parser.get_max_temp (p : Parser) : Except WErr (Option (List ℚ)) :=
  match p.daily_data with
  | none => .error .attributeError
  | some d => .ok d.temperature_2m_max

/-- Accessor `Parser.get_min_temp`: `self.daily_data.get('temperature_2m_min')`. -/
def Parser.get_min_temp (p : Parser) : Except WErr (Option (List ℚ)) :=
  match p.daily_data with
  | none => .error .attributeError
  | some d => .ok d.temperature_2m_min

/-- Accessor `Parser.get_uv_index`: `self.daily_data.get('uv_index_max')`. -/
def Parser.get_uv_index (p : Parser) : Except WErr (Option (List ℚ)) :=
  match p.daily_data with
  | none => .error .attributeError
  | some d => .ok d.uv_index_max

/-- A fully populated `DayWeather` object, as built by
`create_days_list` (every field has been assigned). -/
structure DayWeather where
  max_temp : ℚ
  min_temp : ℚ
  total_humidity : ℚ
  uv_index : ℚ
  time : String
  cloud_cover : ℚ
deriving DecidableEq, Repr

/-- The mutable state of a `WeatherData` object: the six series captured
from the parser at `__init__` (each possibly `None` when the payload
lacked the sub-key), the day count, and the accumulating `days_list`. -/
structure WeatherData where
  days_num : ℕ
  time : Option (List String)
  uv_index : Option (List ℚ)
  cloud_cover : Option (List ℚ)
  max_temp : Option (List ℚ)
  min_temp : Option (List ℚ)
  humiditys : Option (List ℚ)
  days_list : List DayWeather
deriving DecidableEq, Repr

/-- The constructor `WeatherData.__init__`: reads the six accessors from the parser
in source order (time, uv, cloud cover, max temp, min temp, humidity);
fails iff an accessor raises. -/
def WeatherData.init (days_num : ℕ) (p : Parser) : Except WErr WeatherData := do
  let t ← p.get_time
  let uv ← p.get_uv_index
  let cc ← p.get_cloud_cover
  let mx ← p.get_max_temp
  let mn ← p.get_min_temp
  let hs ← p.get_humidity
  .ok ⟨days_num, t, uv, cc, mx, mn, hs, []⟩

/-- Rounding to two decimal places, `float("{:.2f}".format(x))` on the
rational value: round to the nearest multiple of 1/100. -/
def round2 (q : ℚ) : ℚ := (round (q * 100) : ℤ) / 100

/-- The accumulation loop of `calc_total_humidity`:
`for hour in range(n): total += self.humiditys[hour]`, raising
`IndexError` at the first out-of-range access. -/
def sumHours (hs : List ℚ) : ℕ → Except WErr ℚ
  | 0 => .ok 0
  | n + 1 => do
    let s ← sumHours hs n
    let v ← listGet hs n
    .ok (s + v)

/-- Method `WeatherData.calc_total_humidity`: sums the first 24 entries of the
current `humiditys` and returns the mean formatted to 2 decimals;
`TypeError` when `humiditys` is `None`, `IndexError` when it has fewer
than 24 entries. -/
def WeatherData.calc_total_humidity (wd : WeatherData) : Except WErr ℚ :=
  match wd.humiditys with
  | none => .error .typeError
  | some hs => do
    let s ← sumHours hs 24
    .ok (round2 (s / 24))

/-- One iteration of the `create_days_list` loop at day index `i`:
build a `DayWeather` from the daily series at `i` (and the hourly
cloud-cover series at `i`), average the current first 24 humidity
values, append to `days_list` and drop 24 humidity entries. -/
def WeatherData.dayStep (wd : WeatherData) (i : ℕ) : Except WErr WeatherData := do
  let mx ← optGet wd.max_temp i
  let mn ← optGet wd.min_temp i
  let t ← optGet wd.time i
  let uv ← optGet wd.uv_index i
  let cc ← optGet wd.cloud_cover i
  let h ← wd.calc_total_humidity
  .ok { wd with
        days_list := wd.days_list ++ [⟨mx, mn, h, uv, t, cc⟩],
        humiditys := wd.humiditys.map (List.drop 24) }

/-- The `for i in range(days_num)` loop of `create_days_list`, running
`fuel` iterations starting at day index `i`. -/
def WeatherData.daysLoop (wd : WeatherData) (i : ℕ) : ℕ → Except WErr WeatherData
  | 0 => .ok wd
  | fuel + 1 => do
    let wd' ← wd.dayStep i
    wd'.daysLoop (i + 1) fuel

/-- Method `WeatherData.create_days_list`: run the loop for `days_num`
iterations and return the updated object together with its
`days_list` (the method returns `self.days_list`). -/
def WeatherData.create_days_list (wd : WeatherData) :
    Except WErr (WeatherData × List DayWeather) := do
  let wd' ← wd.daysLoop 0 wd.days_num
  .ok (wd', wd'.days_list)

/-- One element of `make_data_ready`'s output: a `DayWeather` flattened
into a dictionary together with the country and the city.  Python is
dynamically typed, so the country/city slots hold whatever values the
caller passed; the type is polymorphic in them. -/
structure DayElement (α : Type) where
  country : α
  city : α
  time : String
  max_temp : ℚ
  min_temp : ℚ
  humidity : ℚ
  uv_index : ℚ
  cloud_cover : ℚ
deriving DecidableEq, Repr

/-- Function `make_data_ready(days_list, country, city)`: map each `DayWeather`
to its dictionary form, preserving order. -/
def make_data_ready (days_list : List DayWeather) (country city : α) :
    List (DayElement α) :=
  days_list.map fun day =>
    ⟨country, city, day.time, day.max_temp, day.min_temp,
     day.total_humidity, day.uv_index, day.cloud_cover⟩

/-- One entry of the geocoding response's `results` list. -/
structure GeoResult where
  name : String
  country : String
  latitude : ℚ
  longitude : ℚ
deriving DecidableEq, Repr

/-- The outcome the external geocoding service produces for this
location: the request fails at transport level, or it succeeds with a
JSON body whose `results` key is absent (`none`) or holds a list. -/
inductive GeoResponse where
  | fail
  | ok (results : Option (List GeoResult))
deriving DecidableEq, Repr

/-- The external world for one pipeline run: what the geocoding
endpoint answers for the queried location (the same answer on every
call within the run), and what the forecast endpoint returns
(`none` = transport failure). -/
structure Env where
  geo : GeoResponse
  forecast : Option ApiData
deriving DecidableEq, Repr

/-- An observable external HTTP call made by the pipeline. -/
inductive ExtCall where
  /-- A `requests.get` against the geocoding endpoint for this location. -/
  | geocode (location : String)
  /-- A `requests.get` against the forecast endpoint with these
  coordinates and day count. -/
  | forecast (latitude longitude : Option ℚ) (days : ℕ)
deriving DecidableEq, Repr

/-- The mutable state of an `API` object. -/
structure APIState where
  location : String
  days_num : ℕ
  latitude : Option ℚ
  longitude : Option ℚ
  city : Option String
  country : Option String
  result : Option ApiData
deriving DecidableEq, Repr

/-- The constructor `API.__init__(location, days_num)`. -/
def API.init (location : String) (days_num : ℕ) : APIState :=
  ⟨location, days_num, none, none, none, none, none⟩

/-- The `try` block of `API.get_geocode`: the HTTP call may raise, a
missing `results` key makes `None[0]` raise `TypeError`, an empty
results list makes `[][0]` raise `IndexError`; otherwise the first
result's fields are stored. -/
def geocodeTry (env : Env) (st : APIState) : Except WErr APIState :=
  match env.geo with
  | .fail => .error .connectionError
  | .ok none => .error .typeError
  | .ok (some []) => .error .indexError
  | .ok (some (g :: _)) =>
    .ok { st with city := some g.name, country := some g.country,
                  latitude := some g.latitude, longitude := some g.longitude }

/-- Method `API.get_geocode`: performs one geocoding call; the `except` clause
re-raises every exception as `ValueError("Location not found: ...")`. -/
def API.get_geocode (env : Env) (st : APIState) :
    List ExtCall × Except WErr APIState :=
  ([.geocode st.location],
   match geocodeTry env st with
   | .ok st' => .ok st'
   | .error _ => .error .valueLocationNotFound)

/-- Method `API.get_weather`: performs one forecast call with the stored
coordinates; a transport failure is re-raised as `ConnectionError`,
otherwise the JSON body is stored in `self.result`. -/
def API.get_weather_call (env : Env) (st : APIState) :
    List ExtCall × Except WErr APIState :=
  ([.forecast st.latitude st.longitude st.days_num],
   match env.forecast with
   | none => .error .connectionError
   | some payload => .ok { st with result := some payload })

/-- Method `API.get_api_data`: geocode, then forecast. -/
def API.get_api_data (env : Env) (st : APIState) :
    List ExtCall × Except WErr APIState :=
  let (t1, r1) := API.get_geocode env st
  match r1 with
  | .error e => (t1, .error e)
  | .ok st1 =>
    let (t2, r2) := API.get_weather_call env st1
    (t1 ++ t2, r2)

/-- Method `API.get_city_name`: calls `get_geocode` again, then returns
`self.city`. -/
def API.get_city_name (env : Env) (st : APIState) :
    List ExtCall × Except WErr (Option String × APIState) :=
  let (t, r) := API.get_geocode env st
  (t, r.map fun st' => (st'.city, st'))

/-- Method `API.get_country_name`: calls `get_geocode` again, then returns
`self.country`. -/
def API.get_country_name (env : Env) (st : APIState) :
    List ExtCall × Except WErr (Option String × APIState) :=
  let (t, r) := API.get_geocode env st
  (t, r.map fun st' => (st'.country, st'))

/-- Function `get_weather(location, days_num)`, the pipeline entry point:
construct the `API` object, fetch the payload, parse it, aggregate
`days_num` day records, then format them with the country and city
names (each of those two getters re-runs the geocode call; Python
evaluates the arguments of `make_data_ready` left to right).  Returns
the trace of external calls made, and the result or first raised
exception. -/
def get_weather (env : Env) (location : String) (days_num : ℕ) :
    List ExtCall × Except WErr (List (DayElement (Option String))) :=
  let st0 := API.init location days_num
  let (t1, r1) := API.get_api_data env st0
  match r1 with
  | .error e => (t1, .error e)
  | .ok st1 =>
    match st1.result with
    | none => (t1, .error .attributeError)
    | some payload =>
      match WeatherData.init days_num (Parser.init payload) with
      | .error e => (t1, .error e)
      | .ok wd =>
        match wd.create_days_list with
        | .error e => (t1, .error e)
        | .ok (_, days_list) =>
          let (t2, r2) := API.get_country_name env st1
          match r2 with
          | .error e => (t1 ++ t2, .error e)
          | .ok (country, st2) =>
            let (t3, r3) := API.get_city_name env st2
            match r3 with
            | .error e => (t1 ++ t2 ++ t3, .error e)
            | .ok (city, _) =>
              (t1 ++ t2 ++ t3, .ok (make_data_ready days_list country city))

/-! ## Derived definitions and concrete fixtures -/

/-- The `DayWeather` record that the `i`-th iteration of the source loop
builds when the current humidity series is the suffix of `hs` starting
at chunk `j`: the daily fields at index `d`, the hourly cloud cover at
index `d`, and the 2-decimal mean of humidity chunk `j`. -/
def specRecord (tm : List String) (uvs ccs mxs mns hs : List ℚ)
    (d j : ℕ) : DayWeather :=
  ⟨mxs.getD d 0, mns.getD d 0, round2 (((hs.drop (24 * j)).take 24).sum / 24),
   uvs.getD d 0, tm.getD d "", ccs.getD d 0⟩

/-- The 24-value hourly humidity slice documented in the spec (and used
in the repository's test fixture). -/
def humList24 : List ℚ :=
  [79, 84, 85, 85, 86, 86, 81, 78, 70, 57, 49, 42, 40, 38, 34, 35,
   56, 63, 68, 69, 71, 72, 76, 60]

/-- A fresh one-day `WeatherData` built on the test fixture's series. -/
def wdFixture : WeatherData :=
  ⟨1, some ["2025-01-21"], some [4.2], some humList24,
   some [21.3], some [12.1], some humList24, []⟩

/-- A two-day request against a forecast whose hourly humidity series
has only 24 entries (daily series have 2 entries each). -/
def wdTwoDays : WeatherData :=
  ⟨2, some ["2025-01-21", "2025-01-22"], some [4.2, 5.1],
   some humList24, some [21.3, 22.0], some [12.1, 13.0],
   some humList24, []⟩

/-- Default element used with `List.getD` on day records. -/
def dwDefault : DayWeather := ⟨0, 0, 0, 0, "", 0⟩

/-- Default element used with `List.getD` on presentation records. -/
def deDefault : DayElement (Option String) := ⟨none, none, "", 0, 0, 0, 0, 0⟩

/-- A sample fully populated day record. -/
def dwSample : DayWeather := ⟨21.3, 12.1, 6517 / 100, 4.2, "2025-01-21", 42⟩

/-- A payload whose `hourly` dictionary lacks `relative_humidity_2m`. -/
def payloadMissingHumidity : ApiData :=
  ⟨some ⟨none, some humList24⟩,
   some ⟨some ["2025-01-21"], some [21.3], some [12.1], some [4.2]⟩⟩

/-- Whether an external call is a geocoding call. -/
def ExtCall.isGeocode : ExtCall → Bool
  | .geocode _ => true
  | .forecast _ _ _ => false

/-- A one-result geocoding answer, mirroring the repository's tests. -/
def geoFixture : GeoResult := ⟨"Haifa", "Israel", 32.8125, 35⟩

/-- A well-formed one-day forecast payload built on the test fixture. -/
def payloadFixture : ApiData :=
  ⟨some ⟨some humList24, some humList24⟩,
   some ⟨some ["2025-01-21"], some [21.3], some [12.1], some [4.2]⟩⟩

/-- An environment where both external services answer successfully. -/
def envFixture : Env := ⟨.ok (some [geoFixture]), some payloadFixture⟩

/-! ## Basic lemmas about the embedded primitives -/

@[simp] theorem ok_bind (a : α) (f : α → Except WErr β) :
    (Except.ok a >>= f) = f a := rfl

@[simp] theorem error_bind (e : WErr) (f : α → Except WErr β) :
    ((Except.error e : Except WErr α) >>= f) = .error e := rfl

@[simp] theorem optGet_some (l : List α) (i : ℕ) :
    optGet (some l) i = listGet l i := rfl

@[simp] theorem optGet_none (i : ℕ) :
    optGet (none : Option (List α)) i = .error .typeError := rfl

theorem listGet_ok (l : List α) (d : α) {i : ℕ} (h : i < l.length) :
    listGet l i = .ok (l.getD i d) := by
  rw [listGet, List.get?_eq_get h, List.getD_eq_getElem l d h]
  simp

theorem listGet_err (l : List α) {i : ℕ} (h : l.length ≤ i) :
    listGet l i = .error .indexError := by
  rw [listGet, List.get?_eq_none.mpr h]

theorem listGet_cases (l : List α) (i : ℕ) :
    (∃ a, listGet l i = .ok a) ∨ listGet l i = .error .indexError := by
  rcases Nat.lt_or_ge i l.length with h | h
  · exact .inl ⟨_, listGet_ok l (l.get ⟨i, h⟩) h⟩
  · exact .inr (listGet_err l h)

theorem sumHours_ok (hs : List ℚ) : ∀ {n : ℕ}, n ≤ hs.length →
    sumHours hs n = .ok ((hs.take n).sum) := by
  intro n
  induction n with
  | zero => intro _; simp [sumHours]
  | succ n ih =>
    intro h
    have hn : n < hs.length := Nat.lt_of_succ_le h
    rw [sumHours, ih (Nat.le_of_lt hn), ok_bind, listGet_ok hs 0 hn, ok_bind]
    have hsum : (hs.take (n + 1)).sum = (hs.take n).sum + hs.getD n 0 := by
      rw [List.take_succ, List.getElem?_eq_getElem hn, Option.toList_some,
        List.sum_append, List.sum_cons, List.sum_nil, add_zero,
        List.getD_eq_getElem hs 0 hn]
    rw [hsum]

theorem sumHours_err (hs : List ℚ) : ∀ {n : ℕ}, hs.length < n →
    sumHours hs n = .error .indexError := by
  intro n
  induction n with
  | zero => intro h; omega
  | succ n ih =>
    intro h
    rcases Nat.lt_or_ge hs.length n with h' | h'
    · rw [sumHours, ih h', error_bind]
    · have hlen : hs.length = n := Nat.le_antisymm (Nat.lt_succ_iff.mp h) h'
      rw [sumHours, sumHours_ok hs hlen.ge, ok_bind,
        listGet_err hs hlen.le, error_bind]

theorem sumHours_ok_len (hs : List ℚ) {n : ℕ} {s : ℚ}
    (h : sumHours hs n = .ok s) : n ≤ hs.length := by
  by_contra hc
  rw [sumHours_err hs (Nat.lt_of_not_le hc)] at h
  exact absurd h (by simp)

theorem calc_total_humidity_ok (wd : WeatherData) {hs : List ℚ}
    (hh : wd.humiditys = some hs) (hl : 24 ≤ hs.length) :
    wd.calc_total_humidity = .ok (round2 ((hs.take 24).sum / 24)) := by
  simp only [WeatherData.calc_total_humidity, hh]
  rw [sumHours_ok hs hl, ok_bind]

theorem calc_total_humidity_err (wd : WeatherData) {hs : List ℚ}
    (hh : wd.humiditys = some hs) (hl : hs.length < 24) :
    wd.calc_total_humidity = .error .indexError := by
  simp only [WeatherData.calc_total_humidity, hh]
  rw [sumHours_err hs hl, error_bind]

theorem calc_total_humidity_ok_len (wd : WeatherData) {hs : List ℚ} {q : ℚ}
    (hh : wd.humiditys = some hs) (h : wd.calc_total_humidity = .ok q) :
    24 ≤ hs.length := by
  by_contra hc
  rw [calc_total_humidity_err wd hh (Nat.lt_of_not_le hc)] at h
  exact absurd h (by simp)

theorem specRecord_drop (tm : List String) (uvs ccs mxs mns hs : List ℚ)
    (d j : ℕ) :
    specRecord tm uvs ccs mxs mns (hs.drop 24) d j =
      specRecord tm uvs ccs mxs mns hs d (j + 1) := by
  rw [specRecord, specRecord, List.drop_drop, Nat.mul_succ, Nat.add_comm]

theorem dayStep_ok (wd : WeatherData) {tm : List String}
    {uvs ccs mxs mns hs : List ℚ} (i : ℕ)
    (htm : wd.time = some tm) (huv : wd.uv_index = some uvs)
    (hcc : wd.cloud_cover = some ccs) (hmx : wd.max_temp = some mxs)
    (hmn : wd.min_temp = some mns) (hhs : wd.humiditys = some hs)
    (ltm : i < tm.length) (luv : i < uvs.length) (lcc : i < ccs.length)
    (lmx : i < mxs.length) (lmn : i < mns.length) (lhs : 24 ≤ hs.length) :
    wd.dayStep i = .ok { wd with
      days_list := wd.days_list ++ [specRecord tm uvs ccs mxs mns hs i 0],
      humiditys := some (hs.drop 24) } := by
  simp only [WeatherData.dayStep, htm, huv, hcc, hmx, hmn, hhs, optGet_some,
    listGet_ok mxs 0 lmx, listGet_ok mns 0 lmn, listGet_ok tm "" ltm,
    listGet_ok uvs 0 luv, listGet_ok ccs 0 lcc,
    calc_total_humidity_ok wd hhs lhs, ok_bind]
  simp [specRecord]

/-- Full characterisation of the `create_days_list` loop on sufficient
data: running `fuel` iterations from day index `i` appends one
`specRecord` per iteration and drops `24 * fuel` humidity entries. -/
theorem daysLoop_ok {tm : List String} {uvs ccs mxs mns : List ℚ} :
    ∀ (fuel : ℕ) (wd : WeatherData) (i : ℕ) (hs : List ℚ),
    wd.time = some tm → wd.uv_index = some uvs →
    wd.cloud_cover = some ccs → wd.max_temp = some mxs →
    wd.min_temp = some mns → wd.humiditys = some hs →
    i + fuel ≤ tm.length → i + fuel ≤ uvs.length →
    i + fuel ≤ ccs.length → i + fuel ≤ mxs.length →
    i + fuel ≤ mns.length → 24 * fuel ≤ hs.length →
    wd.daysLoop i fuel = .ok { wd with
      humiditys := some (hs.drop (24 * fuel)),
      days_list := wd.days_list ++ (List.range fuel).map
        fun j => specRecord tm uvs ccs mxs mns hs (i + j) j } := by
  intro fuel
  induction fuel with
  | zero =>
    intro wd i hs htm huv hcc hmx hmn hhs _ _ _ _ _ _
    simp only [WeatherData.daysLoop, List.range_zero, List.map_nil,
      List.append_nil, Nat.mul_zero, List.drop_zero, ← hhs]
  | succ fuel ih =>
    intro wd i hs htm huv hcc hmx hmn hhs ltm luv lcc lmx lmn lhs
    have hstep := dayStep_ok wd i htm huv hcc hmx hmn hhs
      (by omega) (by omega) (by omega) (by omega) (by omega) (by omega)
    rw [WeatherData.daysLoop, hstep, ok_bind]
    have hih := ih { wd with humiditys := some (hs.drop 24), days_list := wd.days_list ++ [specRecord tm uvs ccs mxs mns hs i 0] } (i + 1) (hs.drop 24) htm huv hcc hmx hmn rfl (by omega) (by omega) (by omega) (by omega) (by omega) (by rw [List.length_drop]; omega)
    rw [hih]
    have hdrop : (hs.drop 24).drop (24 * fuel) = hs.drop (24 * (fuel + 1)) := by
      rw [List.drop_drop, Nat.mul_succ, Nat.add_comm (24 * fuel) 24]
    have hmap : specRecord tm uvs ccs mxs mns hs i 0 ::
        (List.range fuel).map
          (fun j => specRecord tm uvs ccs mxs mns (hs.drop 24) (i + 1 + j) j) =
        (List.range (fuel + 1)).map
          (fun j => specRecord tm uvs ccs mxs mns hs (i + j) j) := by
      rw [List.range_succ_eq_map, List.map_cons, List.map_map]
      refine congrArg₂ _ (by rw [Nat.add_zero]) (List.map_congr_left ?_)
      intro j _
      simp only [Function.comp_apply, specRecord_drop, Nat.succ_eq_add_one]
      have : i + 1 + j = i + (j + 1) := by omega
      rw [this]
    simp only [hdrop, List.append_assoc, List.singleton_append, hmap]

/-- Running `dayStep` on an object whose six series are all present either
raises an `IndexError` or succeeds (with the shape `dayStep` gives). -/
theorem dayStep_cases (wd : WeatherData) {tm : List String}
    {uvs ccs mxs mns hs : List ℚ} (i : ℕ)
    (htm : wd.time = some tm) (huv : wd.uv_index = some uvs)
    (hcc : wd.cloud_cover = some ccs) (hmx : wd.max_temp = some mxs)
    (hmn : wd.min_temp = some mns) (hhs : wd.humiditys = some hs) :
    wd.dayStep i = .error .indexError ∨
    ∃ r, wd.dayStep i = .ok { wd with
      days_list := wd.days_list ++ [r],
      humiditys := some (hs.drop 24) } := by
  rcases Nat.lt_or_ge i tm.length with ltm | ltm
  case inr =>
    left
    simp only [WeatherData.dayStep, htm, huv, hcc, hmx, hmn, optGet_some]
    rcases listGet_cases mxs i with ⟨a, ha⟩ | ha <;> rw [ha]
    · rw [ok_bind]
      rcases listGet_cases mns i with ⟨b, hb⟩ | hb <;> rw [hb]
      · rw [ok_bind, listGet_err tm ltm, error_bind]
      · rw [error_bind]
    · rw [error_bind]
  case inl =>
  rcases Nat.lt_or_ge i uvs.length with luv | luv
  case inr =>
    left
    simp only [WeatherData.dayStep, htm, huv, hcc, hmx, hmn, optGet_some]
    rcases listGet_cases mxs i with ⟨a, ha⟩ | ha <;> rw [ha]
    · rw [ok_bind]
      rcases listGet_cases mns i with ⟨b, hb⟩ | hb <;> rw [hb]
      · rw [ok_bind, listGet_ok tm "" ltm, ok_bind, listGet_err uvs luv,
          error_bind]
      · rw [error_bind]
    · rw [error_bind]
  case inl =>
  rcases Nat.lt_or_ge i ccs.length with lcc | lcc
  case inr =>
    left
    simp only [WeatherData.dayStep, htm, huv, hcc, hmx, hmn, optGet_some]
    rcases listGet_cases mxs i with ⟨a, ha⟩ | ha <;> rw [ha]
    · rw [ok_bind]
      rcases listGet_cases mns i with ⟨b, hb⟩ | hb <;> rw [hb]
      · rw [ok_bind, listGet_ok tm "" ltm, ok_bind, listGet_ok uvs 0 luv,
          ok_bind, listGet_err ccs lcc, error_bind]
      · rw [error_bind]
    · rw [error_bind]
  case inl =>
  rcases Nat.lt_or_ge i mxs.length with lmx | lmx
  case inr =>
    left
    simp only [WeatherData.dayStep, htm, huv, hcc, hmx, hmn, optGet_some]
    rw [listGet_err mxs lmx, error_bind]
  case inl =>
  rcases Nat.lt_or_ge i mns.length with lmn | lmn
  case inr =>
    left
    simp only [WeatherData.dayStep, htm, huv, hcc, hmx, hmn, optGet_some]
    rw [listGet_ok mxs 0 lmx, ok_bind, listGet_err mns lmn, error_bind]
  case inl =>
  rcases Nat.lt_or_ge hs.length 24 with lhs | lhs
  case inl =>
    left
    simp only [WeatherData.dayStep, htm, huv, hcc, hmx, hmn, optGet_some]
    rw [listGet_ok mxs 0 lmx, ok_bind, listGet_ok mns 0 lmn, ok_bind,
      listGet_ok tm "" ltm, ok_bind, listGet_ok uvs 0 luv, ok_bind,
      listGet_ok ccs 0 lcc, ok_bind,
      calc_total_humidity_err wd hhs lhs, error_bind]
  case inr =>
    right
    exact ⟨_, dayStep_ok wd i htm huv hcc hmx hmn hhs ltm luv lcc lmx lmn lhs⟩

/-- Inversion: a successful `dayStep` needs every series to reach
index `i` and at least 24 humidity entries, and produces exactly the
record `dayStep_ok` describes. -/
theorem dayStep_ok_len (wd : WeatherData) {tm : List String}
    {uvs ccs mxs mns hs : List ℚ} (i : ℕ) {wd' : WeatherData}
    (htm : wd.time = some tm) (huv : wd.uv_index = some uvs)
    (hcc : wd.cloud_cover = some ccs) (hmx : wd.max_temp = some mxs)
    (hmn : wd.min_temp = some mns) (hhs : wd.humiditys = some hs)
    (h : wd.dayStep i = .ok wd') :
    i < tm.length ∧ i < uvs.length ∧ i < ccs.length ∧ i < mxs.length ∧
    i < mns.length ∧ 24 ≤ hs.length ∧
    wd' = { wd with
      days_list := wd.days_list ++ [specRecord tm uvs ccs mxs mns hs i 0],
      humiditys := some (hs.drop 24) } := by
  have lmx : i < mxs.length := by
    by_contra hc
    simp only [WeatherData.dayStep, hmx, optGet_some,
      listGet_err mxs (Nat.le_of_not_lt hc), error_bind] at h
    exact Except.noConfusion h
  have lmn : i < mns.length := by
    by_contra hc
    simp only [WeatherData.dayStep, hmx, hmn, optGet_some,
      listGet_ok mxs 0 lmx, ok_bind,
      listGet_err mns (Nat.le_of_not_lt hc), error_bind] at h
    exact Except.noConfusion h
  have ltm : i < tm.length := by
    by_contra hc
    simp only [WeatherData.dayStep, hmx, hmn, htm, optGet_some,
      listGet_ok mxs 0 lmx, listGet_ok mns 0 lmn, ok_bind,
      listGet_err tm (Nat.le_of_not_lt hc), error_bind] at h
    exact Except.noConfusion h
  have luv : i < uvs.length := by
    by_contra hc
    simp only [WeatherData.dayStep, hmx, hmn, htm, huv, optGet_some,
      listGet_ok mxs 0 lmx, listGet_ok mns 0 lmn, listGet_ok tm "" ltm,
      ok_bind, listGet_err uvs (Nat.le_of_not_lt hc), error_bind] at h
    exact Except.noConfusion h
  have lcc : i < ccs.length := by
    by_contra hc
    simp only [WeatherData.dayStep, hmx, hmn, htm, huv, hcc, optGet_some,
      listGet_ok mxs 0 lmx, listGet_ok mns 0 lmn, listGet_ok tm "" ltm,
      listGet_ok uvs 0 luv, ok_bind,
      listGet_err ccs (Nat.le_of_not_lt hc), error_bind] at h
    exact Except.noConfusion h
  have lhs : 24 ≤ hs.length := by
    by_contra hc
    simp only [WeatherData.dayStep, hmx, hmn, htm, huv, hcc, optGet_some,
      listGet_ok mxs 0 lmx, listGet_ok mns 0 lmn, listGet_ok tm "" ltm,
      listGet_ok uvs 0 luv, listGet_ok ccs 0 lcc, ok_bind,
      calc_total_humidity_err wd hhs (Nat.lt_of_not_le hc), error_bind] at h
    exact Except.noConfusion h
  refine ⟨ltm, luv, lcc, lmx, lmn, lhs, ?_⟩
  rw [dayStep_ok wd i htm huv hcc hmx hmn hhs ltm luv lcc lmx lmn lhs] at h
  exact (Except.ok.injEq _ _ ▸ h).symm

/-- Inversion for the whole loop: success implies every series was
long enough for the `fuel` iterations starting at index `i`. -/
theorem daysLoop_ok_len {tm : List String} {uvs ccs mxs mns : List ℚ} :
    ∀ (fuel : ℕ) (wd : WeatherData) (i : ℕ) (hs : List ℚ)
    {wd' : WeatherData},
    wd.time = some tm → wd.uv_index = some uvs →
    wd.cloud_cover = some ccs → wd.max_temp = some mxs →
    wd.min_temp = some mns → wd.humiditys = some hs →
    wd.daysLoop i fuel = .ok wd' →
    (0 < fuel → i + fuel ≤ tm.length ∧ i + fuel ≤ uvs.length ∧
      i + fuel ≤ ccs.length ∧ i + fuel ≤ mxs.length ∧
      i + fuel ≤ mns.length) ∧ 24 * fuel ≤ hs.length := by
  intro fuel
  induction fuel with
  | zero =>
    intro wd i hs wd' _ _ _ _ _ _ _
    exact ⟨fun hlt => absurd hlt (by omega), by omega⟩
  | succ fuel ih =>
    intro wd i hs wd' htm huv hcc hmx hmn hhs h
    rw [WeatherData.daysLoop] at h
    cases hd : wd.dayStep i with
    | error e => rw [hd, error_bind] at h; exact absurd h (by simp)
    | ok wd₁ =>
      rw [hd, ok_bind] at h
      obtain ⟨ltm, luv, lcc, lmx, lmn, lhs, hshape⟩ :=
        dayStep_ok_len wd i htm huv hcc hmx hmn hhs hd
      subst hshape
      obtain ⟨hdaily, hhum⟩ := ih { wd with days_list := wd.days_list ++ [specRecord tm uvs ccs mxs mns hs i 0], humiditys := some (hs.drop 24) } (i + 1) (hs.drop 24) htm huv hcc hmx hmn rfl h
      rw [List.length_drop] at hhum
      constructor
      · intro _
        rcases Nat.eq_zero_or_pos fuel with hf | hf
        · subst hf; omega
        · obtain ⟨a, b, c, d, e⟩ := hdaily hf
          omega
      · omega

/-- On an object whose six series are all present, the loop either
succeeds or raises an `IndexError` — never any other error. -/
theorem daysLoop_cases {tm : List String} {uvs ccs mxs mns : List ℚ} :
    ∀ (fuel : ℕ) (wd : WeatherData) (i : ℕ) (hs : List ℚ),
    wd.time = some tm → wd.uv_index = some uvs →
    wd.cloud_cover = some ccs → wd.max_temp = some mxs →
    wd.min_temp = some mns → wd.humiditys = some hs →
    (∃ wd', wd.daysLoop i fuel = .ok wd') ∨
      wd.daysLoop i fuel = .error .indexError := by
  intro fuel
  induction fuel with
  | zero => intro wd i hs _ _ _ _ _ _; exact .inl ⟨wd, rfl⟩
  | succ fuel ih =>
    intro wd i hs htm huv hcc hmx hmn hhs
    rcases dayStep_cases wd i htm huv hcc hmx hmn hhs with herr | ⟨r, hok⟩
    · right
      rw [WeatherData.daysLoop, herr, error_bind]
    · rw [WeatherData.daysLoop, hok, ok_bind]
      exact ih { wd with days_list := wd.days_list ++ [r], humiditys := some (hs.drop 24) } (i + 1) (hs.drop 24) htm huv hcc hmx hmn rfl

/-! ## Bounds on the rounded humidity average -/

theorem round2_bounds {q : ℚ} (h0 : 0 ≤ q) (h1 : q ≤ 100) :
    0 ≤ round2 q ∧ round2 q ≤ 100 := by
  rw [round2]
  have hlow : (0 : ℤ) ≤ round (q * 100) := by
    rw [round_eq]
    refine Int.le_floor.mpr ?_
    push_cast
    linarith
  have hhigh : round (q * 100) ≤ 10000 := by
    rw [round_eq]
    have hm : ⌊(q * 100 + 1 / 2 : ℚ)⌋ ≤ ⌊(10000 + 1 / 2 : ℚ)⌋ :=
      Int.floor_mono (by linarith)
    have hv : ⌊(10000 + 1 / 2 : ℚ)⌋ = 10000 := by norm_num
    omega
  have hlow' : (0 : ℚ) ≤ (round (q * 100) : ℤ) := by exact_mod_cast hlow
  have hhigh' : ((round (q * 100) : ℤ) : ℚ) ≤ 10000 := by exact_mod_cast hhigh
  constructor <;> [linarith; linarith]

theorem mean_bounds (l : List ℚ) (hlen : l.length ≤ 24)
    (hb : ∀ v ∈ l, 0 ≤ v ∧ v ≤ 100) :
    0 ≤ l.sum / 24 ∧ l.sum / 24 ≤ 100 := by
  have h0 : 0 ≤ l.sum := List.sum_nonneg fun x hx => (hb x hx).1
  have h1 : l.sum ≤ l.length • (100 : ℚ) :=
    List.sum_le_card_nsmul l 100 fun x hx => (hb x hx).2
  rw [nsmul_eq_mul] at h1
  have hc : ((l.length : ℚ)) ≤ 24 := by exact_mod_cast hlen
  constructor <;> [positivity; nlinarith]

/-- The humidity field of every `specRecord` lies in `[0, 100]` as soon
as all hourly humidity inputs do. -/
theorem specRecord_humidity_bounds (tm : List String)
    (uvs ccs mxs mns hs : List ℚ) (d j : ℕ)
    (hb : ∀ v ∈ hs, 0 ≤ v ∧ v ≤ 100) :
    0 ≤ (specRecord tm uvs ccs mxs mns hs d j).total_humidity ∧
    (specRecord tm uvs ccs mxs mns hs d j).total_humidity ≤ 100 := by
  rw [specRecord]
  have hlen : ((hs.drop (24 * j)).take 24).length ≤ 24 := by
    rw [List.length_take]
    exact min_le_left _ _
  have hmem : ∀ v ∈ (hs.drop (24 * j)).take 24, 0 ≤ v ∧ v ≤ 100 :=
    fun v hv => hb v (List.mem_of_mem_drop (List.mem_of_mem_take hv))
  obtain ⟨hl, hr⟩ := mean_bounds _ hlen hmem
  exact round2_bounds hl hr

/-! ## Success characterisation of `create_days_list` -/

theorem create_days_list_ok (wd : WeatherData) {tm : List String}
    {uvs ccs mxs mns hs : List ℚ}
    (htm : wd.time = some tm) (huv : wd.uv_index = some uvs)
    (hcc : wd.cloud_cover = some ccs) (hmx : wd.max_temp = some mxs)
    (hmn : wd.min_temp = some mns) (hhs : wd.humiditys = some hs)
    (hdl : wd.days_list = [])
    (ltm : wd.days_num ≤ tm.length) (luv : wd.days_num ≤ uvs.length)
    (lcc : wd.days_num ≤ ccs.length) (lmx : wd.days_num ≤ mxs.length)
    (lmn : wd.days_num ≤ mns.length) (lhs : 24 * wd.days_num ≤ hs.length) :
    wd.create_days_list = .ok
      ({ wd with
          humiditys := some (hs.drop (24 * wd.days_num)),
          days_list := (List.range wd.days_num).map
            fun j => specRecord tm uvs ccs mxs mns hs j j },
       (List.range wd.days_num).map
         fun j => specRecord tm uvs ccs mxs mns hs j j) := by
  have hloop := daysLoop_ok wd.days_num wd 0 hs htm huv hcc hmx hmn hhs
    (by omega) (by omega) (by omega) (by omega) (by omega) lhs
  rw [hdl, List.nil_append] at hloop
  rw [WeatherData.create_days_list, hloop, ok_bind]
  have hz : ∀ j : ℕ, 0 + j = j := fun j => Nat.zero_add j
  simp only [hz]

/-! ## Success characterisation of the full pipeline -/

theorem weatherData_init_ok (d : ℕ) (hs ccs : List ℚ) (tm : List String)
    (mxs mns uvs : List ℚ) :
    WeatherData.init d (Parser.init
      ⟨some ⟨some hs, some ccs⟩, some ⟨some tm, some mxs, some mns, some uvs⟩⟩) =
    .ok ⟨d, some tm, some uvs, some ccs, some mxs, some mns, some hs, []⟩ := rfl

theorem get_weather_ok (env : Env) (loc : String) (d : ℕ)
    (g : GeoResult) (gs : List GeoResult) (tm : List String)
    (uvs ccs mxs mns hs : List ℚ)
    (hg : env.geo = .ok (some (g :: gs)))
    (hf : env.forecast = some ⟨some ⟨some hs, some ccs⟩,
      some ⟨some tm, some mxs, some mns, some uvs⟩⟩)
    (ltm : d ≤ tm.length) (luv : d ≤ uvs.length) (lcc : d ≤ ccs.length)
    (lmx : d ≤ mxs.length) (lmn : d ≤ mns.length) (lhs : 24 * d ≤ hs.length) :
    get_weather env loc d =
      ([.geocode loc, .forecast (some g.latitude) (some g.longitude) d,
        .geocode loc, .geocode loc],
       .ok (make_data_ready ((List.range d).map
           fun j => specRecord tm uvs ccs mxs mns hs j j)
         (some g.country) (some g.name))) := by
  have hcreate := create_days_list_ok
    ⟨d, some tm, some uvs, some ccs, some mxs, some mns, some hs, []⟩
    rfl rfl rfl rfl rfl rfl rfl ltm luv lcc lmx lmn lhs
  simp only [get_weather, API.get_api_data, API.get_geocode, geocodeTry,
    API.init, hg, hf, API.get_weather_call, weatherData_init_ok,
    hcreate, API.get_country_name, API.get_city_name, Except.map]
  simp

/-! ## Concrete fixtures -/

/-! ## Claim theorems -/

/-- The fixture's humidity average: the slice sums to 1564 and
1564/24 = 65.1666…, which rounds to 65.17 at 2 decimal places. -/
theorem calc_fixture_eq :
    wdFixture.calc_total_humidity = .ok (6517 / 100) := by
  rw [calc_total_humidity_ok wdFixture rfl (by norm_num [humList24])]
  have ht : humList24.take 24 = humList24 :=
    List.take_of_length_le (by norm_num [humList24])
  have hsum : humList24.sum = 1564 := by norm_num [humList24]
  rw [ht, hsum, round2, round_eq]
  norm_num

/-- C4 counterexample: on the documented 24-value humidity slice the
source computes `65.17`, not the claimed `64.54`. -/
theorem fixed_slice_mean_cex :
    wdFixture.calc_total_humidity = .ok (6517 / 100) ∧
    (6517 / 100 : ℚ) ≠ 6454 / 100 :=
  ⟨calc_fixture_eq, by norm_num⟩

/-- C4 (amended): for the fixed hourly humidity slice
`[79,84,…,60]` the computed `humidityAvg` (arithmetic mean rounded to
2 decimal places) equals `65.17`. -/
theorem fixed_slice_mean_value :
    wdFixture.calc_total_humidity = .ok (6517 / 100) :=
  calc_fixture_eq

/-- C6: every geocoding failure — transport failure, a response with no
`results` key, or an empty results list — collapses to the single
`ValueError("Location not found")`, and `get_geocode` never surfaces
any other error kind, so an unresolvable location never crashes with an
untyped error. -/
theorem geocode_collapses_to_location_not_found (env : Env) (st : APIState) :
    ((env.geo = .fail ∨ env.geo = .ok none ∨ env.geo = .ok (some [])) →
      (API.get_geocode env st).2 = .error .valueLocationNotFound) ∧
    (∀ e, (API.get_geocode env st).2 = .error e →
      e = .valueLocationNotFound) := by
  constructor
  · rintro (hg | hg | hg) <;> simp [API.get_geocode, geocodeTry, hg]
  · intro e he
    simp only [API.get_geocode] at he
    cases h : geocodeTry env st with
    | ok st' => rw [h] at he; exact absurd he (by simp)
    | error e' => rw [h] at he; exact (Except.error.inj he).symm

/-- Witness for C6 at a concrete failing environment. -/
theorem geocode_collapses_witness :
    (API.get_geocode ⟨.fail, none⟩ (API.init "not-a-place" 3)).2 =
      .error .valueLocationNotFound :=
  (geocode_collapses_to_location_not_found ⟨.fail, none⟩
    (API.init "not-a-place" 3)).1 (Or.inl rfl)

/-- C1: for every day index `i < days` and a forecast whose hourly
humidity series has at least `24 * days` entries, the aggregation
computes the day-`i` humidity as the 2-decimal rounding of the
arithmetic mean of the 24 hourly values at positions `24*i … 24*i+23`
(a cursor starting at offset 0 advancing by 24 per day). -/
theorem humidity_cursor_mean (wd : WeatherData) {tm : List String}
    {uvs ccs mxs mns hs : List ℚ} (i : ℕ)
    (htm : wd.time = some tm) (huv : wd.uv_index = some uvs)
    (hcc : wd.cloud_cover = some ccs) (hmx : wd.max_temp = some mxs)
    (hmn : wd.min_temp = some mns) (hhs : wd.humiditys = some hs)
    (hdl : wd.days_list = [])
    (ltm : wd.days_num ≤ tm.length) (luv : wd.days_num ≤ uvs.length)
    (lcc : wd.days_num ≤ ccs.length) (lmx : wd.days_num ≤ mxs.length)
    (lmn : wd.days_num ≤ mns.length) (lhs : 24 * wd.days_num ≤ hs.length)
    (hi : i < wd.days_num) :
    ∃ r, wd.create_days_list = .ok r ∧
      (r.2.getD i dwDefault).total_humidity =
        round2 (((hs.drop (24 * i)).take 24).sum / 24) := by
  refine ⟨_, create_days_list_ok wd htm huv hcc hmx hmn hhs hdl
    ltm luv lcc lmx lmn lhs, ?_⟩
  have hlen : i < ((List.range wd.days_num).map
      fun j => specRecord tm uvs ccs mxs mns hs j j).length := by
    simpa using hi
  rw [List.getD_eq_getElem _ _ hlen, List.getElem_map, List.getElem_range]
  rfl

/-- Witness for C1: day 0 of the fixture. -/
theorem humidity_cursor_mean_witness :
    ∃ r, wdFixture.create_days_list = .ok r ∧
      (r.2.getD 0 dwDefault).total_humidity =
        round2 (((humList24.drop (24 * 0)).take 24).sum / 24) :=
  humidity_cursor_mean wdFixture 0 rfl rfl rfl rfl rfl rfl rfl
    (by decide) (by decide) (by decide) (by decide) (by decide)
    (by decide) (by decide)

/-- C5: the day-`i` record's cloud cover equals entry `i` of the
*hourly* cloud-cover series of the payload (a one-value sample, not a
daily aggregate), while max temperature, min temperature, date and UV
index equal entry `i` of their respective daily series. -/
theorem record_fields_by_index (d i : ℕ) (tm : List String)
    (uvs ccs mxs mns hs : List ℚ) (wd : WeatherData)
    (hinit : WeatherData.init d (Parser.init
      ⟨some ⟨some hs, some ccs⟩,
       some ⟨some tm, some mxs, some mns, some uvs⟩⟩) = .ok wd)
    (ltm : d ≤ tm.length) (luv : d ≤ uvs.length) (lcc : d ≤ ccs.length)
    (lmx : d ≤ mxs.length) (lmn : d ≤ mns.length) (lhs : 24 * d ≤ hs.length)
    (hi : i < d) :
    ∃ r, wd.create_days_list = .ok r ∧
      (r.2.getD i dwDefault).cloud_cover = ccs.getD i 0 ∧
      (r.2.getD i dwDefault).max_temp = mxs.getD i 0 ∧
      (r.2.getD i dwDefault).min_temp = mns.getD i 0 ∧
      (r.2.getD i dwDefault).time = tm.getD i "" ∧
      (r.2.getD i dwDefault).uv_index = uvs.getD i 0 := by
  rw [weatherData_init_ok] at hinit
  have hwd : wd = ⟨d, some tm, some uvs, some ccs, some mxs, some mns,
      some hs, []⟩ := (Except.ok.inj hinit).symm
  subst hwd
  refine ⟨_, create_days_list_ok _ rfl rfl rfl rfl rfl rfl rfl
    ltm luv lcc lmx lmn lhs, ?_⟩
  have hlen : i < ((List.range d).map
      fun j => specRecord tm uvs ccs mxs mns hs j j).length := by
    simpa using hi
  rw [List.getD_eq_getElem _ _ hlen, List.getElem_map, List.getElem_range]
  exact ⟨rfl, rfl, rfl, rfl, rfl⟩

/-- Witness for C5: day 0 of the fixture payload. -/
theorem record_fields_by_index_witness :
    ∃ r, wdFixture.create_days_list = .ok r ∧
      (r.2.getD 0 dwDefault).cloud_cover = humList24.getD 0 0 ∧
      (r.2.getD 0 dwDefault).max_temp = ([21.3] : List ℚ).getD 0 0 ∧
      (r.2.getD 0 dwDefault).min_temp = ([12.1] : List ℚ).getD 0 0 ∧
      (r.2.getD 0 dwDefault).time = (["2025-01-21"]).getD 0 "" ∧
      (r.2.getD 0 dwDefault).uv_index = ([4.2] : List ℚ).getD 0 0 :=
  record_fields_by_index 1 0 ["2025-01-21"] [4.2] humList24 [21.3] [12.1]
    humList24 wdFixture rfl (by decide) (by decide) (by decide)
    (by decide) (by decide) (by decide) (by decide)

/-- Any data shortfall — an hourly humidity series shorter than
`24 * days_num`, or any daily series shorter than `days_num` — makes
`create_days_list` fail with the generic `IndexError` (never silently
truncating or wrapping). -/
theorem create_days_list_insufficient (wd : WeatherData) {tm : List String}
    {uvs ccs mxs mns hs : List ℚ}
    (htm : wd.time = some tm) (huv : wd.uv_index = some uvs)
    (hcc : wd.cloud_cover = some ccs) (hmx : wd.max_temp = some mxs)
    (hmn : wd.min_temp = some mns) (hhs : wd.humiditys = some hs)
    (hdef : hs.length < 24 * wd.days_num ∨ tm.length < wd.days_num ∨
      uvs.length < wd.days_num ∨ ccs.length < wd.days_num ∨
      mxs.length < wd.days_num ∨ mns.length < wd.days_num) :
    wd.create_days_list = .error .indexError := by
  rcases daysLoop_cases wd.days_num wd 0 hs htm huv hcc hmx hmn hhs with
    ⟨wd', hok⟩ | herr
  · exfalso
    obtain ⟨hdaily, hhum⟩ := daysLoop_ok_len wd.days_num wd 0 hs
      htm huv hcc hmx hmn hhs hok
    rcases Nat.eq_zero_or_pos wd.days_num with h0 | h0
    · rcases hdef with h | h | h | h | h | h <;> omega
    · obtain ⟨a, b, c, d', e⟩ := hdaily h0
      rcases hdef with h | h | h | h | h | h <;> omega
  · rw [WeatherData.create_days_list, herr, error_bind]

/-- C3 counterexample: requesting 2 days against a 24-entry hourly
humidity series fails with the generic `IndexError`, which is not the
typed `InsufficientDataError` the claim postulates (the source never
defines or raises such an error). -/
theorem insufficient_data_generic_cex :
    wdTwoDays.create_days_list = .error .indexError ∧
    WErr.indexError ≠ WErr.insufficientDataError :=
  ⟨create_days_list_insufficient wdTwoDays rfl rfl rfl rfl rfl rfl
    (Or.inl (by decide)), by decide⟩

/-- C3 (amended): when `days × 24` exceeds the hourly humidity length,
or `days` exceeds any daily series length, the aggregation fails with
the generic (untyped) `IndexError` rather than silently truncating or
wrapping — not with a typed `InsufficientDataError`. -/
theorem insufficient_data_indexerror (wd : WeatherData) {tm : List String}
    {uvs ccs mxs mns hs : List ℚ}
    (htm : wd.time = some tm) (huv : wd.uv_index = some uvs)
    (hcc : wd.cloud_cover = some ccs) (hmx : wd.max_temp = some mxs)
    (hmn : wd.min_temp = some mns) (hhs : wd.humiditys = some hs)
    (hdef : hs.length < 24 * wd.days_num ∨ tm.length < wd.days_num ∨
      uvs.length < wd.days_num ∨ ccs.length < wd.days_num ∨
      mxs.length < wd.days_num ∨ mns.length < wd.days_num) :
    wd.create_days_list = .error .indexError :=
  create_days_list_insufficient wd htm huv hcc hmx hmn hhs hdef

/-- Witness for C3 (amended): the concrete two-day shortfall. -/
theorem insufficient_data_indexerror_witness :
    wdTwoDays.create_days_list = .error .indexError :=
  insufficient_data_indexerror wdTwoDays rfl rfl rfl rfl rfl rfl
    (Or.inl (by decide))

/-- C9: `make_data_ready` maps each day record, in order, to its
presentation dictionary carrying the given country and city; the empty
input yields the empty output, and the function is total (it never
fails). -/
theorem make_data_ready_pointwise :
    (∀ (α : Type) (country city : α) (dl : List DayWeather),
      (make_data_ready dl country city).length = dl.length ∧
      ∀ i, i < dl.length →
        (make_data_ready dl country city).getD i
            ⟨country, city, "", 0, 0, 0, 0, 0⟩ =
          ⟨country, city, (dl.getD i dwDefault).time,
           (dl.getD i dwDefault).max_temp, (dl.getD i dwDefault).min_temp,
           (dl.getD i dwDefault).total_humidity,
           (dl.getD i dwDefault).uv_index,
           (dl.getD i dwDefault).cloud_cover⟩) ∧
    make_data_ready [] "Israel" "Haifa" = ([] : List (DayElement String)) := by
  refine ⟨?_, rfl⟩
  intro α c ci dl
  refine ⟨by simp [make_data_ready], ?_⟩
  intro i hi
  have hmap : make_data_ready dl c ci = dl.map fun day =>
      (⟨c, ci, day.time, day.max_temp, day.min_temp, day.total_humidity,
        day.uv_index, day.cloud_cover⟩ : DayElement α) := rfl
  rw [hmap]
  have hlen : i < (dl.map fun day =>
      (⟨c, ci, day.time, day.max_temp, day.min_temp, day.total_humidity,
        day.uv_index, day.cloud_cover⟩ : DayElement α)).length := by
    simpa using hi
  rw [List.getD_eq_getElem _ _ hlen, List.getElem_map,
    List.getD_eq_getElem _ _ hi]

/-- Witness for C9 on a one-record list and on the empty list. -/
theorem make_data_ready_pointwise_witness :
    (make_data_ready [dwSample] "Israel" "Haifa").getD 0
        ⟨"Israel", "Haifa", "", 0, 0, 0, 0, 0⟩ =
      ⟨"Israel", "Haifa", dwSample.time, dwSample.max_temp,
       dwSample.min_temp, dwSample.total_humidity, dwSample.uv_index,
       dwSample.cloud_cover⟩ ∧
    make_data_ready [] "Israel" "Haifa" = ([] : List (DayElement String)) :=
  ⟨(make_data_ready_pointwise.1 String "Israel" "Haifa" [dwSample]).2 0
    (by decide), make_data_ready_pointwise.2⟩

/-- C7 counterexample: a payload whose `hourly` dictionary lacks the
`relative_humidity_2m` sub-key does not make extraction fail at all —
the accessor returns `None` — in particular it does not fail with the
claimed `MalformedResponseError`. -/
theorem missing_subkey_no_error_cex :
    Parser.get_humidity (Parser.init payloadMissingHumidity) = .ok none ∧
    (Except.ok none : Except WErr (Option (List ℚ))) ≠
      .error .malformedResponseError :=
  ⟨rfl, by simp⟩

/-- C7 (amended): a missing *top-level* key (`hourly` or `daily`) makes
the corresponding accessors fail with `AttributeError` (calling `.get`
on `None`); a missing *sub-key* does not fail extraction — the accessor
returns `None` and the failure only surfaces later in the pipeline.  No
`MalformedResponseError` exists in the source. -/
theorem missing_keys_behavior (payload : ApiData) :
    (payload.hourly = none →
      Parser.get_humidity (Parser.init payload) = .error .attributeError ∧
      Parser.get_cloud_cover (Parser.init payload) = .error .attributeError) ∧
    (payload.daily = none →
      Parser.get_time (Parser.init payload) = .error .attributeError ∧
      Parser.get_max_temp (Parser.init payload) = .error .attributeError ∧
      Parser.get_min_temp (Parser.init payload) = .error .attributeError ∧
      Parser.get_uv_index (Parser.init payload) = .error .attributeError) ∧
    (∀ h, payload.hourly = some h → h.relative_humidity_2m = none →
      Parser.get_humidity (Parser.init payload) = .ok none) := by
  refine ⟨?_, ?_, ?_⟩
  · intro hh
    constructor <;>
      simp [Parser.get_humidity, Parser.get_cloud_cover, Parser.init, hh]
  · intro hd
    refine ⟨?_, ?_, ?_, ?_⟩ <;>
      simp [Parser.get_time, Parser.get_max_temp, Parser.get_min_temp,
        Parser.get_uv_index, Parser.init, hd]
  · intro h hh hr
    simp [Parser.get_humidity, Parser.init, hh, hr]

/-- Witness for C7 (amended): a missing `hourly` key and a missing
humidity sub-key, concretely. -/
theorem missing_keys_behavior_witness :
    Parser.get_humidity (Parser.init ⟨none, none⟩) = .error .attributeError ∧
    Parser.get_humidity (Parser.init payloadMissingHumidity) = .ok none :=
  ⟨((missing_keys_behavior ⟨none, none⟩).1 rfl).1,
   (missing_keys_behavior payloadMissingHumidity).2.2
     ⟨none, some humList24⟩ rfl rfl⟩

/-- Like `create_days_list_ok` but without assuming `days_list` starts
empty: the records are appended to whatever `days_list` already holds. -/
theorem create_days_list_ok_app (wd : WeatherData) {tm : List String}
    {uvs ccs mxs mns hs : List ℚ}
    (htm : wd.time = some tm) (huv : wd.uv_index = some uvs)
    (hcc : wd.cloud_cover = some ccs) (hmx : wd.max_temp = some mxs)
    (hmn : wd.min_temp = some mns) (hhs : wd.humiditys = some hs)
    (ltm : wd.days_num ≤ tm.length) (luv : wd.days_num ≤ uvs.length)
    (lcc : wd.days_num ≤ ccs.length) (lmx : wd.days_num ≤ mxs.length)
    (lmn : wd.days_num ≤ mns.length) (lhs : 24 * wd.days_num ≤ hs.length) :
    wd.create_days_list = .ok
      ({ wd with
          humiditys := some (hs.drop (24 * wd.days_num)),
          days_list := wd.days_list ++ (List.range wd.days_num).map
            fun j => specRecord tm uvs ccs mxs mns hs j j },
       wd.days_list ++ (List.range wd.days_num).map
         fun j => specRecord tm uvs ccs mxs mns hs j j) := by
  have hloop := daysLoop_ok wd.days_num wd 0 hs htm huv hcc hmx hmn hhs
    (by omega) (by omega) (by omega) (by omega) (by omega) lhs
  rw [WeatherData.create_days_list, hloop, ok_bind]
  have hz : ∀ j : ℕ, 0 + j = j := fun j => Nat.zero_add j
  simp only [hz]

/-- C10: the aggregator object is single-use — a first call to
`create_days_list` on a fresh object returns `days_num` records, and a
second call on the same object appends to the stored `days_list` and
returns `2 * days_num` records whose new half is computed from the
humidity entries left after the first call consumed `24 * days_num`
of them: `create_days_list` is not idempotent. -/
theorem create_days_list_not_idempotent (wd : WeatherData)
    {tm : List String} {uvs ccs mxs mns hs : List ℚ}
    (htm : wd.time = some tm) (huv : wd.uv_index = some uvs)
    (hcc : wd.cloud_cover = some ccs) (hmx : wd.max_temp = some mxs)
    (hmn : wd.min_temp = some mns) (hhs : wd.humiditys = some hs)
    (hdl : wd.days_list = [])
    (ltm : wd.days_num ≤ tm.length) (luv : wd.days_num ≤ uvs.length)
    (lcc : wd.days_num ≤ ccs.length) (lmx : wd.days_num ≤ mxs.length)
    (lmn : wd.days_num ≤ mns.length) (lhs : 48 * wd.days_num ≤ hs.length) :
    ∃ wd₁ l₁ wd₂ l₂,
      wd.create_days_list = .ok (wd₁, l₁) ∧ l₁.length = wd.days_num ∧
      wd₁.humiditys = some (hs.drop (24 * wd.days_num)) ∧
      wd₁.create_days_list = .ok (wd₂, l₂) ∧
      l₂.length = 2 * wd.days_num ∧
      l₂ = l₁ ++ (List.range wd.days_num).map
        fun j => specRecord tm uvs ccs mxs mns
          (hs.drop (24 * wd.days_num)) j j := by
  have h1 := create_days_list_ok wd htm huv hcc hmx hmn hhs hdl
    ltm luv lcc lmx lmn (by omega)
  have h2 := create_days_list_ok_app
    { wd with
        humiditys := some (hs.drop (24 * wd.days_num)),
        days_list := (List.range wd.days_num).map
          fun j => specRecord tm uvs ccs mxs mns hs j j }
    htm huv hcc hmx hmn rfl ltm luv lcc lmx lmn
    (show 24 * wd.days_num ≤ (hs.drop (24 * wd.days_num)).length by
      rw [List.length_drop]; omega)
  refine ⟨_, _, _, _, h1, by simp, rfl, h2, ?_, ?_⟩
  · simp
    omega
  · rfl

/-- Witness for C10 on the fixture extended to 48 hourly entries. -/
theorem create_days_list_not_idempotent_witness :
    ∃ wd₁ l₁ wd₂ l₂,
      (WeatherData.mk 1 (some ["2025-01-21"]) (some [4.2]) (some humList24)
        (some [21.3]) (some [12.1]) (some (humList24 ++ humList24))
        []).create_days_list = .ok (wd₁, l₁) ∧ l₁.length = 1 ∧
      wd₁.humiditys = some ((humList24 ++ humList24).drop (24 * 1)) ∧
      wd₁.create_days_list = .ok (wd₂, l₂) ∧ l₂.length = 2 * 1 ∧
      l₂ = l₁ ++ (List.range 1).map
        fun j => specRecord ["2025-01-21"] [4.2] humList24 [21.3] [12.1]
          ((humList24 ++ humList24).drop (24 * 1)) j j :=
  create_days_list_not_idempotent
    (WeatherData.mk 1 (some ["2025-01-21"]) (some [4.2]) (some humList24)
      (some [21.3]) (some [12.1]) (some (humList24 ++ humList24)) [])
    rfl rfl rfl rfl rfl rfl rfl (by decide) (by decide) (by decide)
    (by decide) (by decide) (by decide)

/-- C2: for every resolvable location and day count in 1..7, with a
payload whose hourly humidity holds at least `24 * days` values and
whose daily series hold at least `days` values, `get_weather` returns
exactly `days` records, record `i` carrying the date `time[i]` (so the
records follow the forecast dates in order) and the index-`i` max/min
temperature, UV index and cloud cover; every record's humidity lies in
`[0, 100]` whenever all hourly humidity inputs do. -/
theorem get_weather_day_records (env : Env) (loc : String) (d : ℕ)
    (g : GeoResult) (gs : List GeoResult) (tm : List String)
    (uvs ccs mxs mns hs : List ℚ)
    (hg : env.geo = .ok (some (g :: gs)))
    (hf : env.forecast = some ⟨some ⟨some hs, some ccs⟩,
      some ⟨some tm, some mxs, some mns, some uvs⟩⟩)
    (hd1 : 1 ≤ d) (hd7 : d ≤ 7)
    (ltm : d ≤ tm.length) (luv : d ≤ uvs.length) (lcc : d ≤ ccs.length)
    (lmx : d ≤ mxs.length) (lmn : d ≤ mns.length)
    (lhs : 24 * d ≤ hs.length) :
    ∃ data, (get_weather env loc d).2 = .ok data ∧
      data.length = d ∧
      (∀ i, i < d →
        (data.getD i deDefault).time = tm.getD i "" ∧
        (data.getD i deDefault).max_temp = mxs.getD i 0 ∧
        (data.getD i deDefault).min_temp = mns.getD i 0 ∧
        (data.getD i deDefault).uv_index = uvs.getD i 0 ∧
        (data.getD i deDefault).cloud_cover = ccs.getD i 0) ∧
      ((∀ v ∈ hs, 0 ≤ v ∧ v ≤ 100) → ∀ i, i < d →
        0 ≤ (data.getD i deDefault).humidity ∧
          (data.getD i deDefault).humidity ≤ 100) := by
  rw [get_weather_ok env loc d g gs tm uvs ccs mxs mns hs hg hf
    ltm luv lcc lmx lmn lhs]
  have key : ∀ i, i < d →
      (make_data_ready ((List.range d).map
          fun j => specRecord tm uvs ccs mxs mns hs j j)
        (some g.country) (some g.name)).getD i deDefault =
      ⟨some g.country, some g.name,
       (specRecord tm uvs ccs mxs mns hs i i).time,
       (specRecord tm uvs ccs mxs mns hs i i).max_temp,
       (specRecord tm uvs ccs mxs mns hs i i).min_temp,
       (specRecord tm uvs ccs mxs mns hs i i).total_humidity,
       (specRecord tm uvs ccs mxs mns hs i i).uv_index,
       (specRecord tm uvs ccs mxs mns hs i i).cloud_cover⟩ := by
    intro i hi
    have hlen : i < (make_data_ready ((List.range d).map
        fun j => specRecord tm uvs ccs mxs mns hs j j)
        (some g.country) (some g.name)).length := by
      simpa [make_data_ready] using hi
    rw [List.getD_eq_getElem _ _ hlen]
    have hmap : make_data_ready ((List.range d).map
        fun j => specRecord tm uvs ccs mxs mns hs j j)
        (some g.country) (some g.name) =
        (List.range d).map fun j =>
          (⟨some g.country, some g.name,
            (specRecord tm uvs ccs mxs mns hs j j).time,
            (specRecord tm uvs ccs mxs mns hs j j).max_temp,
            (specRecord tm uvs ccs mxs mns hs j j).min_temp,
            (specRecord tm uvs ccs mxs mns hs j j).total_humidity,
            (specRecord tm uvs ccs mxs mns hs j j).uv_index,
            (specRecord tm uvs ccs mxs mns hs j j).cloud_cover⟩ :
            DayElement (Option String)) := by
      rw [make_data_ready, List.map_map]
      rfl
    simp only [hmap, List.getElem_map, List.getElem_range]
  refine ⟨_, rfl, by simp [make_data_ready], ?_, ?_⟩
  · intro i hi
    rw [key i hi]
    exact ⟨rfl, rfl, rfl, rfl, rfl⟩
  · intro hb i hi
    rw [key i hi]
    exact specRecord_humidity_bounds tm uvs ccs mxs mns hs i i hb

/-- Witness for C2: one day against the fixture environment. -/
theorem get_weather_day_records_witness :
    ∃ data, (get_weather envFixture "haifa" 1).2 = .ok data ∧
      data.length = 1 ∧
      (∀ i, i < 1 →
        (data.getD i deDefault).time = (["2025-01-21"]).getD i "" ∧
        (data.getD i deDefault).max_temp = ([21.3] : List ℚ).getD i 0 ∧
        (data.getD i deDefault).min_temp = ([12.1] : List ℚ).getD i 0 ∧
        (data.getD i deDefault).uv_index = ([4.2] : List ℚ).getD i 0 ∧
        (data.getD i deDefault).cloud_cover = humList24.getD i 0) ∧
      ((∀ v ∈ humList24, 0 ≤ v ∧ v ≤ 100) → ∀ i, i < 1 →
        0 ≤ (data.getD i deDefault).humidity ∧
          (data.getD i deDefault).humidity ≤ 100) :=
  get_weather_day_records envFixture "haifa" 1 geoFixture [] ["2025-01-21"]
    [4.2] humList24 [21.3] [12.1] humList24 rfl rfl (by decide) (by decide)
    (by decide) (by decide) (by decide) (by decide) (by decide) (by decide)

/-- C8 counterexample: a successful one-day run against the fixture
environment performs three geocoding calls (one inside
`get_api_data`, one in `get_country_name`, one in `get_city_name`),
not exactly one. -/
theorem three_geocode_calls_cex :
    ((get_weather envFixture "haifa" 1).1.countP
      fun c => c.isGeocode) = 3 ∧
    ((get_weather envFixture "haifa" 1).1.countP
      fun c => c.isGeocode) ≠ 1 := by
  have h := get_weather_ok envFixture "haifa" 1 geoFixture [] ["2025-01-21"]
    [4.2] humList24 [21.3] [12.1] humList24 rfl rfl (by decide) (by decide)
    (by decide) (by decide) (by decide) (by decide)
  rw [h]
  constructor <;> decide

/-- C8 (amended): every successful run issues exactly this sequence of
external calls: one geocode, then one forecast with the geocoded
coordinates, then two further geocode calls (for the country name and
the city name) — three geocode calls in total, not one. -/
theorem call_trace_shape (env : Env) (loc : String) (d : ℕ)
    (g : GeoResult) (gs : List GeoResult) (tm : List String)
    (uvs ccs mxs mns hs : List ℚ)
    (hg : env.geo = .ok (some (g :: gs)))
    (hf : env.forecast = some ⟨some ⟨some hs, some ccs⟩,
      some ⟨some tm, some mxs, some mns, some uvs⟩⟩)
    (ltm : d ≤ tm.length) (luv : d ≤ uvs.length) (lcc : d ≤ ccs.length)
    (lmx : d ≤ mxs.length) (lmn : d ≤ mns.length)
    (lhs : 24 * d ≤ hs.length) :
    (get_weather env loc d).1 =
      [.geocode loc, .forecast (some g.latitude) (some g.longitude) d,
       .geocode loc, .geocode loc] := by
  rw [get_weather_ok env loc d g gs tm uvs ccs mxs mns hs hg hf
    ltm luv lcc lmx lmn lhs]

/-- Witness for C8 (amended) on the fixture environment. -/
theorem call_trace_shape_witness :
    (get_weather envFixture "haifa" 1).1 =
      [.geocode "haifa",
       .forecast (some geoFixture.latitude) (some geoFixture.longitude) 1,
       .geocode "haifa", .geocode "haifa"] :=
  call_trace_shape envFixture "haifa" 1 geoFixture [] ["2025-01-21"]
    [4.2] humList24 [21.3] [12.1] humList24 rfl rfl (by decide) (by decide)
    (by decide) (by decide) (by decide) (by decide)

end WeatherApp
